import Mathlib

/-!
Verification of the DuckDB backup tool
(`src/plugins/duckdb-backup/scripts/backup_duckdb.py`).

Shallow embedding: the filesystem is a finite map from paths (component
lists) to byte contents plus a set of directories; each Python function is
translated to a Lean function that threads the filesystem state explicitly
and records a trace of log messages and filesystem/subprocess actions.
Python exceptions that the script's `try/except` blocks can catch are
modelled by explicit failure flags (for `mkdir`, `unlink`, `shutil.copy2`,
`stat`) and by an outcome value for the `duckdb` subprocess; the `except`
handlers of the script correspond to the branches that turn such a failure
into a `false` return value.
-/

set_option autoImplicit false

/-- Paths are lists of components; `Path(backup_dir) / name` appends a
component and `p.parent` drops the last component. -/
abbrev FPath := List String

/-- File contents are byte lists; the claims only compare them for equality. -/
abbrev Bytes := List Nat

/-- Association-list lookup used by the filesystem map. -/
def lookupFile : List (FPath × Bytes) → FPath → Option Bytes
  | [], _ => none
  | e :: rest, p => if p = e.1 then some e.2 else lookupFile rest p

/-- Remove every entry for a path from the filesystem map. -/
def eraseFile : List (FPath × Bytes) → FPath → List (FPath × Bytes)
  | [], _ => []
  | e :: rest, p => if p = e.1 then eraseFile rest p else e :: eraseFile rest p

/-- Filesystem state: regular files with their contents, and the set of
directories (only the directories the script itself creates matter to the
claims, so `mkdir(parents=True, exist_ok=True)` is modelled as inserting
the target directory). -/
structure FS where
  files : List (FPath × Bytes)
  dirs : List FPath
deriving DecidableEq

/-- Read a file's bytes, `none` when no file exists at the path. -/
def FS.read (fs : FS) (p : FPath) : Option Bytes := lookupFile fs.files p

/-- Model of writing a file (`shutil.copy2` target, or the subprocess
creating the backup database): replaces any previous entry. -/
def FS.setFileFS (fs : FS) (p : FPath) (b : Bytes) : FS :=
  { fs with files := (p, b) :: eraseFile fs.files p }

/-- Model of `Path.unlink`. -/
def FS.unlink (fs : FS) (p : FPath) : FS :=
  { fs with files := eraseFile fs.files p }

/-- Model of `p.mkdir(parents=True, exist_ok=True)`. -/
def FS.mkdirP (fs : FS) (p : FPath) : FS :=
  if p ∈ fs.dirs then fs else { fs with dirs := p :: fs.dirs }

/-- Model of `Path.parent`. -/
def parentOf (p : FPath) : FPath := p.dropLast

/-- Model of `Path.resolve()`: paths in the model are already absolute. -/
def resolvePath (p : FPath) : FPath := p

/-- Render a path the way the script interpolates it into messages. -/
def pathStr (p : FPath) : String := String.intercalate "/" p

/-- Trace events: log records emitted through `logger`, and the filesystem
or subprocess actions the script performs. -/
inductive Ev where
  | logInfo (msg : String)
  | logWarning (msg : String)
  | logError (msg : String)
  | evMkdir (p : FPath)
  | evUnlink (p : FPath)
  | evCopyFile (src dst : FPath)
  | evRun (script : String) (timeoutSecs : Nat)
deriving DecidableEq

/-- An event that changes the filesystem or spawns the subprocess. -/
def Ev.isMutation : Ev → Bool
  | Ev.evMkdir _ => true
  | Ev.evUnlink _ => true
  | Ev.evCopyFile _ _ => true
  | Ev.evRun _ _ => true
  | _ => false

/-- Failure injection for the copy strategy: each flag makes the
corresponding library call raise, which the script's `except Exception`
block catches. `false` everywhere models a healthy, writable filesystem. -/
structure CpEnv where
  mkdirFail : Bool
  unlinkFail : Bool
  copyFail : Bool
  statFail : Bool
deriving DecidableEq

/-- The healthy environment: no library call raises. -/
def CpEnv.ok : CpEnv := ⟨false, false, false, false⟩

/-- Outcome of the `subprocess.run(['duckdb'], ...)` call: it can hit the
timeout (raising `TimeoutExpired`), fail to spawn (raising), or complete
with a return code, a stderr text, and optionally the bytes it wrote to
the destination path. -/
inductive SubprocOutcome where
  | timeout
  | spawnErr
  | done (rc : Int) (stderr : String) (writes : Option Bytes)
deriving DecidableEq

/-- Failure injection for the native-export strategy. -/
structure AttEnv where
  mkdirFail : Bool
  sub : SubprocOutcome
deriving DecidableEq

/-- Tail of `backup_with_cp` after the overwrite handling: the
`shutil.copy2(source, dest)` call followed by `dest.stat()`.  A missing
source at copy time (possible when the destination equalled the source and
was just unlinked) raises inside the `try` block and yields `false`. -/
def copyStep (env : CpEnv) (fs : FS) (db_path backup_path : FPath) (t : List Ev) :
    Bool × FS × List Ev :=
  if env.copyFail then
    (false, fs, t ++ [Ev.logError "File-based backup error: copy failed"])
  else
    match fs.read db_path with
    | none =>
        (false, fs, t ++ [Ev.logError "File-based backup error: copy source missing"])
    | some content =>
        let fs2 := fs.setFileFS backup_path content
        let t2 := t ++ [Ev.evCopyFile db_path backup_path]
        if env.statFail then
          (false, fs2, t2 ++ [Ev.logError "File-based backup error: stat failed"])
        else
          (true, fs2, t2 ++ [Ev.logInfo "File-based backup completed"])

/-- Translation of `backup_with_cp` (lines 66-98): check the source
exists, create the destination's parent directory, unlink an existing
destination with a warning, copy, stat, and return a boolean; any raised
error is caught and turned into `false`. -/
def backup_with_cp (env : CpEnv) (fs : FS) (db_path backup_path : FPath) :
    Bool × FS × List Ev :=
  let t0 := [Ev.logInfo ("Starting file-based backup: " ++ pathStr db_path ++
    " -> " ++ pathStr backup_path)]
  match fs.read db_path with
  | none =>
      (false, fs, t0 ++ [Ev.logError ("Source database not found: " ++ pathStr db_path)])
  | some _ =>
      if env.mkdirFail then
        (false, fs, t0 ++ [Ev.logError "File-based backup error: mkdir failed"])
      else
        let fs1 := fs.mkdirP (parentOf backup_path)
        let t1 := t0 ++ [Ev.evMkdir (parentOf backup_path)]
        if (fs1.read backup_path).isSome then
          let t2 := t1 ++ [Ev.logWarning ("Overwriting existing backup: " ++
            pathStr backup_path)]
          if env.unlinkFail then
            (false, fs1, t2 ++ [Ev.logError "File-based backup error: unlink failed"])
          else
            copyStep env (fs1.unlink backup_path) db_path backup_path
              (t2 ++ [Ev.evUnlink backup_path])
        else
          copyStep env fs1 db_path backup_path t1

/-- A single-quote character, used when interpolating paths into the SQL
script fed to the `duckdb` subprocess. -/
def sqChar : String := String.singleton (Char.ofNat 39)

/-- The SQL script `backup_with_attach` feeds to the `duckdb` CLI. -/
def attachSql (absDb absBackup : FPath) : String :=
  "\nATTACH " ++ sqChar ++ pathStr absDb ++ sqChar ++ " AS source_db (READ_ONLY);\n" ++
  "ATTACH " ++ sqChar ++ pathStr absBackup ++ sqChar ++ " AS backup_db;\n" ++
  "COPY FROM DATABASE source_db TO backup_db;\n"

/-- Filesystem effect of the completed `duckdb` subprocess: it may have
written the destination database file. -/
def applySubWrites (fs : FS) (p : FPath) (w : Option Bytes) : FS :=
  match w with
  | some b => fs.setFileFS p b
  | none => fs

/-- Trace prefix shared by every `backup_with_attach` run that reaches the
subprocess call: the start log, the parent `mkdir`, and the subprocess
invocation with its 3600-second timeout. -/
def attachPre (db_path backup_path : FPath) : List Ev :=
  [Ev.logInfo ("Starting ATTACH+COPY backup: " ++ pathStr db_path ++
    " -> " ++ pathStr backup_path),
   Ev.evMkdir (parentOf (resolvePath backup_path)),
   Ev.evRun (attachSql (resolvePath db_path) (resolvePath backup_path)) 3600]

/-- Translation of `backup_with_attach` (lines 23-63): resolve both paths,
create the destination's parent directory, run the `duckdb` CLI on the
attach/copy script with a 3600-second timeout, treat a non-zero return
code as failure logging the subprocess stderr, and on return code zero
read the destination's size via `stat` (which raises, hence `false`, when
the subprocess left no file there). -/
def backup_with_attach (env : AttEnv) (fs : FS) (db_path backup_path : FPath) :
    Bool × FS × List Ev :=
  let absBackup := resolvePath backup_path
  if env.mkdirFail then
    (false, fs,
      [Ev.logInfo ("Starting ATTACH+COPY backup: " ++ pathStr db_path ++
        " -> " ++ pathStr backup_path),
       Ev.logError "ATTACH+COPY backup error: mkdir failed"])
  else
    let fs1 := fs.mkdirP (parentOf absBackup)
    let t2 := attachPre db_path backup_path
    match env.sub with
    | SubprocOutcome.timeout =>
        (false, fs1, t2 ++ [Ev.logError "ATTACH+COPY backup error: timeout expired"])
    | SubprocOutcome.spawnErr =>
        (false, fs1, t2 ++ [Ev.logError "ATTACH+COPY backup error: spawn failed"])
    | SubprocOutcome.done rc stderrTxt writes =>
        let fs2 := applySubWrites fs1 absBackup writes
        if rc ≠ 0 then
          (false, fs2, t2 ++ [Ev.logError ("DuckDB backup failed: " ++ stderrTxt)])
        else
          match fs2.read absBackup with
          | none =>
              (false, fs2, t2 ++ [Ev.logError "ATTACH+COPY backup error: stat failed"])
          | some _ =>
              (true, fs2, t2 ++ [Ev.logInfo "ATTACH+COPY backup completed"])

/-- Wall-clock value returned by `datetime.now()`, at the second
granularity the script formats. The model covers four-digit years, the
range every wall clock reachable by this tool lies in. -/
structure DateTime where
  year : Nat
  month : Nat
  day : Nat
  hour : Nat
  minute : Nat
  second : Nat
deriving DecidableEq

/-- Field ranges of a real `datetime.now()` value (year restricted to four
digits, where `strftime` zero-pads `%Y` to width 4). -/
def DateTime.valid (t : DateTime) : Prop :=
  1000 ≤ t.year ∧ t.year ≤ 9999 ∧ 1 ≤ t.month ∧ t.month ≤ 12 ∧
  1 ≤ t.day ∧ t.day ≤ 31 ∧ t.hour ≤ 23 ∧ t.minute ≤ 59 ∧ t.second ≤ 59

instance (t : DateTime) : Decidable t.valid := by
  unfold DateTime.valid; infer_instance

/-- Two zero-padded decimal digits, as `strftime` renders `%m`, `%d`,
`%H`, `%M`, `%S`. -/
def pad2 (n : Nat) : List Char :=
  [Nat.digitChar (n / 10 % 10), Nat.digitChar (n % 10)]

/-- Four zero-padded decimal digits, as `strftime` renders `%Y` for a
four-digit year. -/
def pad4 (n : Nat) : List Char :=
  [Nat.digitChar (n / 1000 % 10), Nat.digitChar (n / 100 % 10),
   Nat.digitChar (n / 10 % 10), Nat.digitChar (n % 10)]

/-- Modelled from the spec and CPython: `strftime("%Y%m%d-%H%M%S")`. -/
def fmtTs (t : DateTime) : List Char :=
  pad4 t.year ++ pad2 t.month ++ pad2 t.day ++ ['-'] ++
  pad2 t.hour ++ pad2 t.minute ++ pad2 t.second

/-- The filename `create_timestamped_backup` builds:
`f"backup-{timestamp}.duckdb"`. -/
def backupFilename (t : DateTime) : String :=
  String.mk (['b', 'a', 'c', 'k', 'u', 'p', '-'] ++ fmtTs t ++
    ['.', 'd', 'u', 'c', 'k', 'd', 'b'])

/-- Position-by-position pattern check: the character list must have
exactly the pattern's length and satisfy the per-position predicate. -/
def checkPat : List (Char → Bool) → List Char → Bool
  | [], [] => true
  | p :: ps, c :: cs => p c && checkPat ps cs
  | _, _ => false

/-- Per-position check for one fixed character. -/
def isChar (a : Char) : Char → Bool := fun c => c = a

/-- Decidable check that a string matches `backup-YYYYMMDD-HHMMSS.duckdb`:
the literal characters in place and a decimal digit at each of the
fourteen timestamp positions. -/
def matchesPattern (s : String) : Bool :=
  checkPat
    [isChar 'b', isChar 'a', isChar 'c', isChar 'k', isChar 'u', isChar 'p',
     isChar '-', Char.isDigit, Char.isDigit, Char.isDigit, Char.isDigit,
     Char.isDigit, Char.isDigit, Char.isDigit, Char.isDigit, isChar '-',
     Char.isDigit, Char.isDigit, Char.isDigit, Char.isDigit, Char.isDigit,
     Char.isDigit, isChar '.', isChar 'd', isChar 'u', isChar 'c', isChar 'k',
     isChar 'd', isChar 'b'] s.data

/-- Translation of `create_timestamped_backup` (lines 101-117): build the
timestamped filename, join it to the backup directory, dispatch on the
method, and return the backup path on success or the empty sentinel (the
empty path, modelling Python's `""`) on failure or unknown method. The
`now` argument is the value `datetime.now()` returns during the call. -/
def create_timestamped_backup (cpE : CpEnv) (attE : AttEnv) (now : DateTime)
    (fs : FS) (db_path backup_dir : FPath) (method : String) :
    FPath × FS × List Ev :=
  let backup_filename := backupFilename now
  let backup_path := backup_dir ++ [backup_filename]
  let t0 := [Ev.logInfo ("Creating timestamped backup: " ++ backup_filename)]
  if method = "cp" then
    let r := backup_with_cp cpE fs db_path backup_path
    ((if r.1 then backup_path else []), r.2.1, t0 ++ r.2.2)
  else if method = "attach" then
    let r := backup_with_attach attE fs db_path backup_path
    ((if r.1 then backup_path else []), r.2.1, t0 ++ r.2.2)
  else
    ([], fs, t0 ++ [Ev.logError ("Unknown backup method: " ++ method)])

/-- The argparse `choices=["cp", "attach"]` check on `--method`. -/
def validMethod (m : String) : Bool := m = "cp" || m = "attach"

/-- Translation of the whole process (`sys.exit(main())`, lines 120-157):
argparse rejects an invalid `--method` with exit status 2 before anything
else runs; otherwise `main` dispatches on `--timestamp` and the method and
returns 0 on success, 1 on failure, printing the backup path to stdout
only in timestamp mode on success. The result is (exit status, final
filesystem, trace, stdout lines). -/
def runProcess (cpE : CpEnv) (attE : AttEnv) (now : DateTime) (fs : FS)
    (db backup : FPath) (method : String) (timestamp : Bool) :
    Int × FS × List Ev × List String :=
  if validMethod method = false then
    (2, fs, [], [])
  else if timestamp then
    let r := create_timestamped_backup cpE attE now fs db backup method
    if r.1 ≠ [] then (0, r.2.1, r.2.2, [pathStr r.1]) else (1, r.2.1, r.2.2, [])
  else if method = "cp" then
    let r := backup_with_cp cpE fs db backup
    ((if r.1 then 0 else 1), r.2.1, r.2.2, [])
  else
    let r := backup_with_attach attE fs db backup
    ((if r.1 then 0 else 1), r.2.1, r.2.2, [])

theorem lookupFile_eraseFile_ne (l : List (FPath × Bytes)) (p q : FPath) (h : p ≠ q) :
    lookupFile (eraseFile l q) p = lookupFile l p := by
  induction l with
  | nil => rfl
  | cons e rest ih =>
      by_cases hq : q = e.1
      · subst hq
        simp [eraseFile, lookupFile, h, ih]
      · by_cases hp : p = e.1
        · simp [eraseFile, lookupFile, hq, hp]
        · simp [eraseFile, lookupFile, hq, hp, ih]

theorem read_setFileFS_self (fs : FS) (p : FPath) (b : Bytes) :
    (fs.setFileFS p b).read p = some b := by
  simp [FS.setFileFS, FS.read, lookupFile]

theorem read_unlink_ne (fs : FS) (p q : FPath) (h : p ≠ q) :
    (fs.unlink q).read p = fs.read p := by
  simp [FS.unlink, FS.read, lookupFile_eraseFile_ne _ _ _ h]

theorem read_mkdirP (fs : FS) (d p : FPath) :
    (fs.mkdirP d).read p = fs.read p := by
  unfold FS.mkdirP
  split <;> rfl

theorem files_mkdirP (fs : FS) (d : FPath) : (fs.mkdirP d).files = fs.files := by
  unfold FS.mkdirP
  split <;> rfl

/-- Shared computation: when the source file is missing, `backup_with_cp`
returns `false` immediately and leaves the filesystem untouched, its trace
holding only the two log records. -/
theorem cp_missing_source_eq (env : CpEnv) (fs : FS) (db bp : FPath)
    (h : fs.read db = none) :
    backup_with_cp env fs db bp =
      (false, fs,
        [Ev.logInfo ("Starting file-based backup: " ++ pathStr db ++ " -> " ++ pathStr bp),
         Ev.logError ("Source database not found: " ++ pathStr db)]) := by
  simp [backup_with_cp, h]

/-- C3: for every input where the source file does not exist, the copy
strategy returns failure and creates no destination file: the destination
path holds exactly what it held before, in particular nothing if it held
nothing. -/
theorem c3_missing_source_fails (env : CpEnv) (fs : FS) (db bp : FPath)
    (h : fs.read db = none) :
    (backup_with_cp env fs db bp).1 = false ∧
    ((backup_with_cp env fs db bp).2.1).read bp = fs.read bp := by
  rw [cp_missing_source_eq env fs db bp h]
  exact ⟨rfl, rfl⟩

/-- Witness for C3 at a concrete filesystem with no source file and no
destination file: the run fails and the destination still does not exist. -/
theorem c3_missing_source_fails_witness :
    (FS.mk [] []).read ["tmp", "a.db"] = none ∧
    (backup_with_cp CpEnv.ok (FS.mk [] []) ["tmp", "a.db"] ["tmp", "out.db"]).1 = false ∧
    ((backup_with_cp CpEnv.ok (FS.mk [] []) ["tmp", "a.db"] ["tmp", "out.db"]).2.1).read
      ["tmp", "out.db"] = (FS.mk [] []).read ["tmp", "out.db"] := by
  refine ⟨by decide, ?_⟩
  exact c3_missing_source_fails CpEnv.ok (FS.mk [] []) ["tmp", "a.db"] ["tmp", "out.db"]
    (by decide)

/-- C9: when the source file does not exist the copy strategy leaves the
filesystem entirely unchanged (files and directories alike), because the
source-existence check runs before the `mkdir` and before the overwrite
`unlink`; this holds for every failure-injection environment and in
particular when a file already occupies the destination path. -/
theorem c9_missing_source_fs_unchanged (env : CpEnv) (fs : FS) (db bp : FPath)
    (h : fs.read db = none) :
    backup_with_cp env fs db bp =
      (false, fs,
        [Ev.logInfo ("Starting file-based backup: " ++ pathStr db ++ " -> " ++ pathStr bp),
         Ev.logError ("Source database not found: " ++ pathStr db)]) :=
  cp_missing_source_eq env fs db bp h

/-- Witness for C9 at a concrete filesystem whose destination file exists:
the run leaves the filesystem (including that file and the directory set)
exactly as it was. -/
theorem c9_missing_source_fs_unchanged_witness :
    (FS.mk [(["tmp", "out.db"], [9, 9])] [["tmp"]]).read ["tmp", "a.db"] = none ∧
    backup_with_cp CpEnv.ok (FS.mk [(["tmp", "out.db"], [9, 9])] [["tmp"]])
        ["tmp", "a.db"] ["tmp", "out.db"] =
      (false, FS.mk [(["tmp", "out.db"], [9, 9])] [["tmp"]],
        [Ev.logInfo "Starting file-based backup: tmp/a.db -> tmp/out.db",
         Ev.logError "Source database not found: tmp/a.db"]) := by
  refine ⟨by decide, ?_⟩
  have h := c9_missing_source_fs_unchanged CpEnv.ok
    (FS.mk [(["tmp", "out.db"], [9, 9])] [["tmp"]]) ["tmp", "a.db"] ["tmp", "out.db"]
    (by decide)
  rw [h]
  decide

/-- Counterexample to C1 as stated: with the destination path equal to the
(existing) source path — a writable directory — the copy strategy does not
return success: the overwrite `unlink` removes the only copy, so
`shutil.copy2` raises and the run returns `false`, leaving no file at the
destination at all. -/
theorem c1_cp_same_path_counterexample :
    (backup_with_cp CpEnv.ok (FS.mk [(["data", "a.db"], [1, 2, 3])] [])
        ["data", "a.db"] ["data", "a.db"]).1 = false ∧
    ((backup_with_cp CpEnv.ok (FS.mk [(["data", "a.db"], [1, 2, 3])] [])
        ["data", "a.db"] ["data", "a.db"]).2.1).read ["data", "a.db"] = none := by
  decide

/-- C1 (amended): for every existing source file and writable destination
directory, provided the destination path differs from the source path, the
copy strategy returns success and the destination file's byte content is
identical to the source file's byte content. -/
theorem c1_cp_copies_bytes (fs : FS) (db bp : FPath) (c : Bytes)
    (hdb : fs.read db = some c) (hne : db ≠ bp) :
    (backup_with_cp CpEnv.ok fs db bp).1 = true ∧
    ((backup_with_cp CpEnv.ok fs db bp).2.1).read bp = some c := by
  have h1 : (fs.mkdirP (parentOf bp)).read db = some c := by
    rw [read_mkdirP]; exact hdb
  have h2 : ((fs.mkdirP (parentOf bp)).unlink bp).read db = some c := by
    rw [read_unlink_ne _ _ _ hne]; exact h1
  by_cases hex : ((fs.mkdirP (parentOf bp)).read bp).isSome
  · simp [backup_with_cp, copyStep, CpEnv.ok, hdb, hex, h2, read_setFileFS_self]
  · simp [backup_with_cp, copyStep, CpEnv.ok, hdb, hex, h1, read_setFileFS_self]

/-- Witness for C1 at a concrete one-file filesystem: the backup succeeds
and the destination holds the source's bytes. -/
theorem c1_cp_copies_bytes_witness :
    (backup_with_cp CpEnv.ok (FS.mk [(["data", "a.db"], [1, 2, 3])] [])
        ["data", "a.db"] ["tmp", "out.db"]).1 = true ∧
    ((backup_with_cp CpEnv.ok (FS.mk [(["data", "a.db"], [1, 2, 3])] [])
        ["data", "a.db"] ["tmp", "out.db"]).2.1).read ["tmp", "out.db"] =
      some [1, 2, 3] :=
  c1_cp_copies_bytes (FS.mk [(["data", "a.db"], [1, 2, 3])] [])
    ["data", "a.db"] ["tmp", "out.db"] [1, 2, 3] (by decide) (by decide)

/-- Counterexample to C2 as stated: when the occupied destination path is
the source path itself, the run does not succeed — the file is unlinked
and then the copy raises, so the strategy returns `false` and the
destination afterwards holds nothing, not the source content. -/
theorem c2_overwrite_counterexample :
    (backup_with_cp CpEnv.ok (FS.mk [(["x", "b.db"], [7])] [])
        ["x", "b.db"] ["x", "b.db"]).1 = false ∧
    ((backup_with_cp CpEnv.ok (FS.mk [(["x", "b.db"], [7])] [])
        ["x", "b.db"] ["x", "b.db"]).2.1).read ["x", "b.db"] = none := by
  decide

/-- C2 (amended): when the source exists, a file already occupies the
destination path, and the destination path differs from the source path,
the run: removes the existing destination before copying (the trace shows
the `unlink` strictly before the copy), logs the removal as a warning,
returns success, and leaves the destination holding the new source
content. -/
theorem c2_overwrite_succeeds (fs : FS) (db bp : FPath) (c old : Bytes)
    (hdb : fs.read db = some c) (hbp : fs.read bp = some old) (hne : db ≠ bp) :
    backup_with_cp CpEnv.ok fs db bp =
      (true, ((fs.mkdirP (parentOf bp)).unlink bp).setFileFS bp c,
        [Ev.logInfo ("Starting file-based backup: " ++ pathStr db ++ " -> " ++ pathStr bp),
         Ev.evMkdir (parentOf bp),
         Ev.logWarning ("Overwriting existing backup: " ++ pathStr bp),
         Ev.evUnlink bp,
         Ev.evCopyFile db bp,
         Ev.logInfo "File-based backup completed"]) ∧
    ((((fs.mkdirP (parentOf bp)).unlink bp).setFileFS bp c).read bp = some c) := by
  have h1 : (fs.mkdirP (parentOf bp)).read bp = some old := by
    rw [read_mkdirP]; exact hbp
  have hex : ((fs.mkdirP (parentOf bp)).read bp).isSome := by
    rw [h1]; rfl
  have h2 : ((fs.mkdirP (parentOf bp)).unlink bp).read db = some c := by
    rw [read_unlink_ne _ _ _ hne, read_mkdirP]; exact hdb
  refine ⟨?_, read_setFileFS_self _ _ _⟩
  simp [backup_with_cp, copyStep, CpEnv.ok, hdb, hex, h2]

/-- Witness for C2 at a concrete filesystem whose destination is already
occupied: the run succeeds with the expected trace and the destination
holds the new content. -/
theorem c2_overwrite_succeeds_witness :
    backup_with_cp CpEnv.ok
        (FS.mk [(["d", "a.db"], [1, 2]), (["t", "out.db"], [9])] [["t"]])
        ["d", "a.db"] ["t", "out.db"] =
      (true,
        (((FS.mk [(["d", "a.db"], [1, 2]), (["t", "out.db"], [9])] [["t"]]).mkdirP
            (parentOf ["t", "out.db"])).unlink ["t", "out.db"]).setFileFS
          ["t", "out.db"] [1, 2],
        [Ev.logInfo "Starting file-based backup: d/a.db -> t/out.db",
         Ev.evMkdir ["t"],
         Ev.logWarning "Overwriting existing backup: t/out.db",
         Ev.evUnlink ["t", "out.db"],
         Ev.evCopyFile ["d", "a.db"] ["t", "out.db"],
         Ev.logInfo "File-based backup completed"]) ∧
    ((((FS.mk [(["d", "a.db"], [1, 2]), (["t", "out.db"], [9])] [["t"]]).mkdirP
        (parentOf ["t", "out.db"])).unlink ["t", "out.db"]).setFileFS
      ["t", "out.db"] [1, 2]).read ["t", "out.db"] = some [1, 2] := by
  have h := c2_overwrite_succeeds
    (FS.mk [(["d", "a.db"], [1, 2]), (["t", "out.db"], [9])] [["t"]])
    ["d", "a.db"] ["t", "out.db"] [1, 2] [9] (by decide) (by decide) (by decide)
  refine ⟨?_, h.2⟩
  rw [h.1]
  decide

theorem attach_mkdir_fail_eq (env : AttEnv) (fs : FS) (db bp : FPath)
    (hm : env.mkdirFail = true) :
    backup_with_attach env fs db bp =
      (false, fs,
        [Ev.logInfo ("Starting ATTACH+COPY backup: " ++ pathStr db ++ " -> " ++ pathStr bp),
         Ev.logError "ATTACH+COPY backup error: mkdir failed"]) := by
  simp [backup_with_attach, hm]

theorem attach_timeout_eq (env : AttEnv) (fs : FS) (db bp : FPath)
    (hm : env.mkdirFail = false) (hs : env.sub = SubprocOutcome.timeout) :
    backup_with_attach env fs db bp =
      (false, fs.mkdirP (parentOf (resolvePath bp)),
        attachPre db bp ++ [Ev.logError "ATTACH+COPY backup error: timeout expired"]) := by
  simp [backup_with_attach, hm, hs]

theorem attach_spawn_eq (env : AttEnv) (fs : FS) (db bp : FPath)
    (hm : env.mkdirFail = false) (hs : env.sub = SubprocOutcome.spawnErr) :
    backup_with_attach env fs db bp =
      (false, fs.mkdirP (parentOf (resolvePath bp)),
        attachPre db bp ++ [Ev.logError "ATTACH+COPY backup error: spawn failed"]) := by
  simp [backup_with_attach, hm, hs]

theorem attach_done_nonzero_eq (env : AttEnv) (fs : FS) (db bp : FPath)
    (rc : Int) (st : String) (w : Option Bytes)
    (hm : env.mkdirFail = false) (hs : env.sub = SubprocOutcome.done rc st w)
    (hrc : rc ≠ 0) :
    backup_with_attach env fs db bp =
      (false, applySubWrites (fs.mkdirP (parentOf (resolvePath bp))) (resolvePath bp) w,
        attachPre db bp ++ [Ev.logError ("DuckDB backup failed: " ++ st)]) := by
  simp [backup_with_attach, hm, hs, hrc]

theorem attach_done_zero_none_eq (env : AttEnv) (fs : FS) (db bp : FPath)
    (st : String) (w : Option Bytes)
    (hm : env.mkdirFail = false) (hs : env.sub = SubprocOutcome.done 0 st w)
    (hr : (applySubWrites (fs.mkdirP (parentOf (resolvePath bp))) (resolvePath bp) w).read
      (resolvePath bp) = none) :
    backup_with_attach env fs db bp =
      (false, applySubWrites (fs.mkdirP (parentOf (resolvePath bp))) (resolvePath bp) w,
        attachPre db bp ++ [Ev.logError "ATTACH+COPY backup error: stat failed"]) := by
  simp [backup_with_attach, hm, hs, hr]

theorem attach_done_zero_some_eq (env : AttEnv) (fs : FS) (db bp : FPath)
    (st : String) (w : Option Bytes) (b : Bytes)
    (hm : env.mkdirFail = false) (hs : env.sub = SubprocOutcome.done 0 st w)
    (hr : (applySubWrites (fs.mkdirP (parentOf (resolvePath bp))) (resolvePath bp) w).read
      (resolvePath bp) = some b) :
    backup_with_attach env fs db bp =
      (true, applySubWrites (fs.mkdirP (parentOf (resolvePath bp))) (resolvePath bp) w,
        attachPre db bp ++ [Ev.logInfo "ATTACH+COPY backup completed"]) := by
  simp [backup_with_attach, hm, hs, hr]

/-- Every `backup_with_attach` run that passes the `mkdir` ends with the
subprocess-call prefix followed by exactly one closing log record, an
error on failure or an info on success. -/
theorem attach_trace_shape (env : AttEnv) (fs : FS) (db bp : FPath)
    (hm : env.mkdirFail = false) :
    ∃ m : String,
      (backup_with_attach env fs db bp).2.2 = attachPre db bp ++ [Ev.logError m] ∨
      (backup_with_attach env fs db bp).2.2 = attachPre db bp ++ [Ev.logInfo m] := by
  rcases hsub : env.sub with _ | _ | ⟨rc, st, w⟩
  · exact ⟨_, Or.inl (by rw [attach_timeout_eq env fs db bp hm hsub])⟩
  · exact ⟨_, Or.inl (by rw [attach_spawn_eq env fs db bp hm hsub])⟩
  · by_cases hrc : rc = 0
    · subst hrc
      rcases hr : (applySubWrites (fs.mkdirP (parentOf (resolvePath bp)))
          (resolvePath bp) w).read (resolvePath bp) with _ | b
      · exact ⟨_, Or.inl (by rw [attach_done_zero_none_eq env fs db bp st w hm hsub hr])⟩
      · exact ⟨_, Or.inr (by rw [attach_done_zero_some_eq env fs db bp st w b hm hsub hr])⟩
    · exact ⟨_, Or.inl (by rw [attach_done_nonzero_eq env fs db bp rc st w hm hsub hrc])⟩

/-- C7: the native-export subprocess is always invoked with the hard
3600-second timeout (every subprocess event in any trace carries 3600); a
timed-out subprocess makes the strategy return failure rather than hang;
and a completed subprocess with non-zero exit status makes it return
failure with the subprocess's stderr logged. -/
theorem c7_attach_timeout_and_stderr :
    (∀ (env : AttEnv) (fs : FS) (db bp : FPath),
      env.sub = SubprocOutcome.timeout → (backup_with_attach env fs db bp).1 = false) ∧
    (∀ (env : AttEnv) (fs : FS) (db bp : FPath) (rc : Int) (st : String) (w : Option Bytes),
      env.mkdirFail = false → env.sub = SubprocOutcome.done rc st w → rc ≠ 0 →
      (backup_with_attach env fs db bp).1 = false ∧
      Ev.logError ("DuckDB backup failed: " ++ st) ∈ (backup_with_attach env fs db bp).2.2) ∧
    (∀ (env : AttEnv) (fs : FS) (db bp : FPath) (s : String) (n : Nat),
      Ev.evRun s n ∈ (backup_with_attach env fs db bp).2.2 → n = 3600) := by
  refine ⟨?_, ?_, ?_⟩
  · intro env fs db bp hs
    by_cases hm : env.mkdirFail
    · rw [attach_mkdir_fail_eq env fs db bp hm]
    · rw [attach_timeout_eq env fs db bp (by simpa using hm) hs]
  · intro env fs db bp rc st w hm hs hrc
    rw [attach_done_nonzero_eq env fs db bp rc st w hm hs hrc]
    exact ⟨rfl, by simp⟩
  · intro env fs db bp s n h
    by_cases hm : env.mkdirFail
    · rw [attach_mkdir_fail_eq env fs db bp hm] at h
      simp at h
    · obtain ⟨m, hsh | hsh⟩ := attach_trace_shape env fs db bp (by simpa using hm) <;>
        rw [hsh] at h <;> simp [attachPre] at h <;> exact h.2

/-- Witness for C7: a timed-out run fails; a run whose subprocess exits
with status 1 and stderr `boom` fails with that stderr logged; and the
recorded subprocess timeout at a concrete run is 3600. -/
theorem c7_witness :
    (backup_with_attach (AttEnv.mk false SubprocOutcome.timeout) (FS.mk [] [])
        ["a"] ["b", "c"]).1 = false ∧
    ((backup_with_attach (AttEnv.mk false (SubprocOutcome.done 1 "boom" none))
        (FS.mk [] []) ["a"] ["b", "c"]).1 = false ∧
      Ev.logError ("DuckDB backup failed: " ++ "boom") ∈
        (backup_with_attach (AttEnv.mk false (SubprocOutcome.done 1 "boom" none))
          (FS.mk [] []) ["a"] ["b", "c"]).2.2) ∧
    (3600 : Nat) = 3600 :=
  ⟨c7_attach_timeout_and_stderr.1 (AttEnv.mk false SubprocOutcome.timeout)
      (FS.mk [] []) ["a"] ["b", "c"] rfl,
   c7_attach_timeout_and_stderr.2.1 (AttEnv.mk false (SubprocOutcome.done 1 "boom" none))
      (FS.mk [] []) ["a"] ["b", "c"] 1 "boom" none rfl rfl (by decide),
   c7_attach_timeout_and_stderr.2.2 (AttEnv.mk false (SubprocOutcome.done 1 "boom" none))
      (FS.mk [] []) ["a"] ["b", "c"] (attachSql ["a"] ["b", "c"]) 3600 (by decide)⟩

/-- C10: if the native-export strategy returns success then the
destination file exists at return (its stat succeeded); a zero-exit
subprocess that left no destination file still yields failure; and there
is no source-existence precheck — even with the source file absent the
strategy performs the parent `mkdir` and invokes the subprocess. -/
theorem c10_attach_postconditions :
    (∀ (env : AttEnv) (fs : FS) (db bp : FPath),
      (backup_with_attach env fs db bp).1 = true →
      (((backup_with_attach env fs db bp).2.1).read (resolvePath bp)).isSome = true) ∧
    (∀ (env : AttEnv) (fs : FS) (db bp : FPath) (st : String),
      env.mkdirFail = false → env.sub = SubprocOutcome.done 0 st none →
      fs.read (resolvePath bp) = none →
      (backup_with_attach env fs db bp).1 = false) ∧
    (∀ (env : AttEnv) (fs : FS) (db bp : FPath),
      env.mkdirFail = false → fs.read db = none →
      Ev.evMkdir (parentOf (resolvePath bp)) ∈ (backup_with_attach env fs db bp).2.2 ∧
      Ev.evRun (attachSql (resolvePath db) (resolvePath bp)) 3600 ∈
        (backup_with_attach env fs db bp).2.2) := by
  refine ⟨?_, ?_, ?_⟩
  · intro env fs db bp h
    by_cases hm : env.mkdirFail
    · rw [attach_mkdir_fail_eq env fs db bp hm] at h
      simp at h
    · have hm2 : env.mkdirFail = false := by simpa using hm
      rcases hsub : env.sub with _ | _ | ⟨rc, st, w⟩
      · rw [attach_timeout_eq env fs db bp hm2 hsub] at h
        simp at h
      · rw [attach_spawn_eq env fs db bp hm2 hsub] at h
        simp at h
      · by_cases hrc : rc = 0
        · subst hrc
          rcases hr : (applySubWrites (fs.mkdirP (parentOf (resolvePath bp)))
              (resolvePath bp) w).read (resolvePath bp) with _ | b
          · rw [attach_done_zero_none_eq env fs db bp st w hm2 hsub hr] at h
            simp at h
          · rw [attach_done_zero_some_eq env fs db bp st w b hm2 hsub hr]
            simp [hr]
        · rw [attach_done_nonzero_eq env fs db bp rc st w hm2 hsub hrc] at h
          simp at h
  · intro env fs db bp st hm hs hread
    have hr : (applySubWrites (fs.mkdirP (parentOf (resolvePath bp)))
        (resolvePath bp) none).read (resolvePath bp) = none := by
      simpa [applySubWrites, read_mkdirP] using hread
    rw [attach_done_zero_none_eq env fs db bp st none hm hs hr]
  · intro env fs db bp hm hdb
    obtain ⟨m, hsh | hsh⟩ := attach_trace_shape env fs db bp hm <;>
      rw [hsh] <;> constructor <;> simp [attachPre]

/-- Witness for C10: a run whose subprocess wrote the destination succeeds
with the destination present; a zero-exit run that wrote nothing to an
absent destination fails; and a run on a missing source still records the
`mkdir` and the subprocess invocation. -/
theorem c10_witness :
    ((((backup_with_attach (AttEnv.mk false (SubprocOutcome.done 0 "" (some [5])))
        (FS.mk [] []) ["a"] ["b", "c"]).2.1).read (resolvePath ["b", "c"])).isSome = true) ∧
    ((backup_with_attach (AttEnv.mk false (SubprocOutcome.done 0 "" none))
        (FS.mk [] []) ["a"] ["b", "c"]).1 = false) ∧
    (Ev.evMkdir (parentOf (resolvePath ["b", "c"])) ∈
        (backup_with_attach (AttEnv.mk false SubprocOutcome.timeout)
          (FS.mk [] []) ["a"] ["b", "c"]).2.2 ∧
      Ev.evRun (attachSql (resolvePath ["a"]) (resolvePath ["b", "c"])) 3600 ∈
        (backup_with_attach (AttEnv.mk false SubprocOutcome.timeout)
          (FS.mk [] []) ["a"] ["b", "c"]).2.2) :=
  ⟨c10_attach_postconditions.1 (AttEnv.mk false (SubprocOutcome.done 0 "" (some [5])))
      (FS.mk [] []) ["a"] ["b", "c"] (by decide),
   c10_attach_postconditions.2.1 (AttEnv.mk false (SubprocOutcome.done 0 "" none))
      (FS.mk [] []) ["a"] ["b", "c"] "" rfl rfl (by decide),
   c10_attach_postconditions.2.2 (AttEnv.mk false SubprocOutcome.timeout)
      (FS.mk [] []) ["a"] ["b", "c"] rfl (by decide)⟩

theorem copyStep_false_logs (env : CpEnv) (fs : FS) (db bp : FPath) (t : List Ev)
    (h : (copyStep env fs db bp t).1 = false) :
    ∃ m, Ev.logError m ∈ (copyStep env fs db bp t).2.2 := by
  by_cases hc : env.copyFail
  · refine ⟨"File-based backup error: copy failed", ?_⟩
    simp [copyStep, hc]
  · rcases hr : fs.read db with _ | c
    · refine ⟨"File-based backup error: copy source missing", ?_⟩
      simp [copyStep, hc, hr]
    · by_cases hst : env.statFail
      · refine ⟨"File-based backup error: stat failed", ?_⟩
        simp [copyStep, hc, hr, hst]
      · exfalso
        simp [copyStep, hc, hr, hst] at h

theorem cp_false_logs (env : CpEnv) (fs : FS) (db bp : FPath)
    (h : (backup_with_cp env fs db bp).1 = false) :
    ∃ m, Ev.logError m ∈ (backup_with_cp env fs db bp).2.2 := by
  rcases hdb : fs.read db with _ | c
  · refine ⟨"Source database not found: " ++ pathStr db, ?_⟩
    rw [cp_missing_source_eq env fs db bp hdb]
    simp
  · by_cases hm : env.mkdirFail
    · refine ⟨"File-based backup error: mkdir failed", ?_⟩
      simp [backup_with_cp, hdb, hm]
    · by_cases hex : ((fs.mkdirP (parentOf bp)).read bp).isSome
      · by_cases hu : env.unlinkFail
        · refine ⟨"File-based backup error: unlink failed", ?_⟩
          simp [backup_with_cp, hdb, hm, hex, hu]
        · have hcs : backup_with_cp env fs db bp =
              copyStep env ((fs.mkdirP (parentOf bp)).unlink bp) db bp
                [Ev.logInfo ("Starting file-based backup: " ++ pathStr db ++
                   " -> " ++ pathStr bp),
                 Ev.evMkdir (parentOf bp),
                 Ev.logWarning ("Overwriting existing backup: " ++ pathStr bp),
                 Ev.evUnlink bp] := by
            simp [backup_with_cp, hdb, hm, hex, hu]
          rw [hcs] at h ⊢
          exact copyStep_false_logs _ _ _ _ _ h
      · have hcs : backup_with_cp env fs db bp =
            copyStep env (fs.mkdirP (parentOf bp)) db bp
              [Ev.logInfo ("Starting file-based backup: " ++ pathStr db ++
                 " -> " ++ pathStr bp),
               Ev.evMkdir (parentOf bp)] := by
          simp [backup_with_cp, hdb, hm, hex]
        rw [hcs] at h ⊢
        exact copyStep_false_logs _ _ _ _ _ h

theorem attach_false_logs (env : AttEnv) (fs : FS) (db bp : FPath)
    (h : (backup_with_attach env fs db bp).1 = false) :
    ∃ m, Ev.logError m ∈ (backup_with_attach env fs db bp).2.2 := by
  by_cases hm : env.mkdirFail
  · refine ⟨"ATTACH+COPY backup error: mkdir failed", ?_⟩
    rw [attach_mkdir_fail_eq env fs db bp hm]
    simp
  · have hm2 : env.mkdirFail = false := by simpa using hm
    rcases hsub : env.sub with _ | _ | ⟨rc, st, w⟩
    · refine ⟨"ATTACH+COPY backup error: timeout expired", ?_⟩
      rw [attach_timeout_eq env fs db bp hm2 hsub]
      simp
    · refine ⟨"ATTACH+COPY backup error: spawn failed", ?_⟩
      rw [attach_spawn_eq env fs db bp hm2 hsub]
      simp
    · by_cases hrc : rc = 0
      · subst hrc
        rcases hr : (applySubWrites (fs.mkdirP (parentOf (resolvePath bp)))
            (resolvePath bp) w).read (resolvePath bp) with _ | b
        · refine ⟨"ATTACH+COPY backup error: stat failed", ?_⟩
          rw [attach_done_zero_none_eq env fs db bp st w hm2 hsub hr]
          simp
        · exfalso
          rw [attach_done_zero_some_eq env fs db bp st w b hm2 hsub hr] at h
          simp at h
      · refine ⟨"DuckDB backup failed: " ++ st, ?_⟩
        rw [attach_done_nonzero_eq env fs db bp rc st w hm2 hsub hrc]
        simp

theorem runProcess_exit_01 (cpE : CpEnv) (attE : AttEnv) (now : DateTime) (fs : FS)
    (db bk : FPath) (method : String) (ts : Bool)
    (hv : validMethod method = true) :
    (runProcess cpE attE now fs db bk method ts).1 = 0 ∨
    (runProcess cpE attE now fs db bk method ts).1 = 1 := by
  cases ts
  · by_cases hcp : method = "cp"
    · cases hb : (backup_with_cp cpE fs db bk).1 <;>
        simp [runProcess, validMethod, hv, hcp, hb]
    · cases hb : (backup_with_attach attE fs db bk).1 <;>
        simp [runProcess, hv, hcp, hb]
  · by_cases hbp : (create_timestamped_backup cpE attE now fs db bk method).1 = []
    · simp [runProcess, hv, hbp]
    · simp [runProcess, hv, hbp]

/-- C8: over every modelled filesystem or subprocess error (each injected
exception the script's `try/except` can catch), both strategies return a
boolean with no exception reaching the caller — every failing run carries
a logged error — and for every invocation with a selected strategy the
process exits cleanly with status 0 or 1. -/
theorem c8_no_exception_clean_exit :
    (∀ (cpE : CpEnv) (attE : AttEnv) (now : DateTime) (fs : FS) (db bk : FPath)
        (method : String) (ts : Bool), validMethod method = true →
      (runProcess cpE attE now fs db bk method ts).1 = 0 ∨
      (runProcess cpE attE now fs db bk method ts).1 = 1) ∧
    (∀ (env : CpEnv) (fs : FS) (db bp : FPath),
      (backup_with_cp env fs db bp).1 = false →
      ∃ m, Ev.logError m ∈ (backup_with_cp env fs db bp).2.2) ∧
    (∀ (env : AttEnv) (fs : FS) (db bp : FPath),
      (backup_with_attach env fs db bp).1 = false →
      ∃ m, Ev.logError m ∈ (backup_with_attach env fs db bp).2.2) :=
  ⟨runProcess_exit_01, cp_false_logs, attach_false_logs⟩

/-- Witness for C8: a concrete valid run exits 0 or 1; a concrete failing
copy run (injected `mkdir` error) and a concrete failing native-export run
(subprocess spawn error) each log an error. -/
theorem c8_witness :
    ((runProcess CpEnv.ok (AttEnv.mk false SubprocOutcome.timeout)
        (DateTime.mk 2025 1 1 0 0 0) (FS.mk [] []) ["a"] ["b"] "cp" false).1 = 0 ∨
      (runProcess CpEnv.ok (AttEnv.mk false SubprocOutcome.timeout)
        (DateTime.mk 2025 1 1 0 0 0) (FS.mk [] []) ["a"] ["b"] "cp" false).1 = 1) ∧
    (∃ m, Ev.logError m ∈ (backup_with_cp (CpEnv.mk true false false false)
        (FS.mk [(["a"], [1])] []) ["a"] ["b"]).2.2) ∧
    (∃ m, Ev.logError m ∈ (backup_with_attach (AttEnv.mk false SubprocOutcome.spawnErr)
        (FS.mk [] []) ["a"] ["b"]).2.2) :=
  ⟨c8_no_exception_clean_exit.1 CpEnv.ok (AttEnv.mk false SubprocOutcome.timeout)
      (DateTime.mk 2025 1 1 0 0 0) (FS.mk [] []) ["a"] ["b"] "cp" false (by decide),
   c8_no_exception_clean_exit.2.1 (CpEnv.mk true false false false)
      (FS.mk [(["a"], [1])] []) ["a"] ["b"] (by decide),
   c8_no_exception_clean_exit.2.2 (AttEnv.mk false SubprocOutcome.spawnErr)
      (FS.mk [] []) ["a"] ["b"] (by decide)⟩

/-- C5: for every invocation whose `--method` selects a backup operation,
the process exit status is 0 exactly when that operation succeeds and 1 on
any failure, and the resolved backup path is printed to stdout only in
timestamp mode on success; in every other case stdout is empty. -/
theorem c5_exit_and_stdout (cpE : CpEnv) (attE : AttEnv) (now : DateTime) (fs : FS)
    (db bk : FPath) (method : String) (ts : Bool)
    (hm : method = "cp" ∨ method = "attach") :
    ((runProcess cpE attE now fs db bk method ts).1 = 0 ∨
      (runProcess cpE attE now fs db bk method ts).1 = 1) ∧
    (ts = true →
      ((create_timestamped_backup cpE attE now fs db bk method).1 ≠ [] →
        (runProcess cpE attE now fs db bk method ts).1 = 0 ∧
        (runProcess cpE attE now fs db bk method ts).2.2.2 =
          [pathStr (create_timestamped_backup cpE attE now fs db bk method).1]) ∧
      ((create_timestamped_backup cpE attE now fs db bk method).1 = [] →
        (runProcess cpE attE now fs db bk method ts).1 = 1 ∧
        (runProcess cpE attE now fs db bk method ts).2.2.2 = [])) ∧
    (ts = false →
      (runProcess cpE attE now fs db bk method ts).2.2.2 = [] ∧
      (method = "cp" →
        ((runProcess cpE attE now fs db bk method ts).1 = 0 ↔
          (backup_with_cp cpE fs db bk).1 = true)) ∧
      (method = "attach" →
        ((runProcess cpE attE now fs db bk method ts).1 = 0 ↔
          (backup_with_attach attE fs db bk).1 = true))) := by
  have hv : validMethod method = true := by
    rcases hm with h | h <;> simp [validMethod, h]
  refine ⟨runProcess_exit_01 cpE attE now fs db bk method ts hv, ?_, ?_⟩
  · rintro rfl
    constructor
    · intro hne
      simp [runProcess, hv, hne]
    · intro heq
      simp [runProcess, hv, heq]
  · rintro rfl
    rcases hm with hcp | hat
    · subst hcp
      cases hb : (backup_with_cp cpE fs db bk).1 <;>
        simp [runProcess, validMethod, hb]
    · subst hat
      cases hb : (backup_with_attach attE fs db bk).1 <;>
        simp [runProcess, validMethod, hb]

/-- Witness for C5: a concrete timestamp-mode run over an existing source
succeeds with exit 0 and prints exactly the resolved backup path. -/
theorem c5_witness :
    ((runProcess CpEnv.ok (AttEnv.mk false SubprocOutcome.timeout)
        (DateTime.mk 2025 12 23 15 30 45) (FS.mk [(["data", "a.db"], [1, 2])] [])
        ["data", "a.db"] ["bk"] "cp" true).1 = 0 ∨
      (runProcess CpEnv.ok (AttEnv.mk false SubprocOutcome.timeout)
        (DateTime.mk 2025 12 23 15 30 45) (FS.mk [(["data", "a.db"], [1, 2])] [])
        ["data", "a.db"] ["bk"] "cp" true).1 = 1) ∧
    ((runProcess CpEnv.ok (AttEnv.mk false SubprocOutcome.timeout)
        (DateTime.mk 2025 12 23 15 30 45) (FS.mk [(["data", "a.db"], [1, 2])] [])
        ["data", "a.db"] ["bk"] "cp" true).1 = 0 ∧
      (runProcess CpEnv.ok (AttEnv.mk false SubprocOutcome.timeout)
        (DateTime.mk 2025 12 23 15 30 45) (FS.mk [(["data", "a.db"], [1, 2])] [])
        ["data", "a.db"] ["bk"] "cp" true).2.2.2 =
        [pathStr (create_timestamped_backup CpEnv.ok
          (AttEnv.mk false SubprocOutcome.timeout) (DateTime.mk 2025 12 23 15 30 45)
          (FS.mk [(["data", "a.db"], [1, 2])] []) ["data", "a.db"] ["bk"] "cp").1]) := by
  have h := c5_exit_and_stdout CpEnv.ok (AttEnv.mk false SubprocOutcome.timeout)
    (DateTime.mk 2025 12 23 15 30 45) (FS.mk [(["data", "a.db"], [1, 2])] [])
    ["data", "a.db"] ["bk"] "cp" true (Or.inl rfl)
  exact ⟨h.1, (h.2.1 rfl).1 (by decide)⟩

/-- Counterexample to C6 as stated: at a concrete invocation with the
unknown method value `tar`, the process exit status is 2 (the argparse
`choices` rejection), not 1. -/
theorem c6_unknown_method_counterexample :
    (runProcess CpEnv.ok (AttEnv.mk false SubprocOutcome.timeout)
        (DateTime.mk 2025 1 1 0 0 0) (FS.mk [(["a"], [1])] []) ["a"] ["b"]
        "tar" false).1 = 2 ∧
    ¬ (runProcess CpEnv.ok (AttEnv.mk false SubprocOutcome.timeout)
        (DateTime.mk 2025 1 1 0 0 0) (FS.mk [(["a"], [1])] []) ["a"] ["b"]
        "tar" false).1 = 1 := by
  decide

/-- C6 (amended): an unknown `--method` value is rejected by argparse
before anything else runs, so the process exits with status 2 — not 1 —
with the filesystem untouched, an empty trace, and empty stdout; and when
an unknown method string reaches `create_timestamped_backup` directly, the
function returns the empty sentinel, mutates nothing, and its trace holds
no filesystem or subprocess action. -/
theorem c6_unknown_method_no_mutation :
    (∀ (cpE : CpEnv) (attE : AttEnv) (now : DateTime) (fs : FS) (db bk : FPath)
        (method : String) (ts : Bool), validMethod method = false →
      runProcess cpE attE now fs db bk method ts = (2, fs, [], [])) ∧
    (∀ (cpE : CpEnv) (attE : AttEnv) (now : DateTime) (fs : FS) (db bk : FPath)
        (method : String), method ≠ "cp" → method ≠ "attach" →
      (create_timestamped_backup cpE attE now fs db bk method).1 = [] ∧
      (create_timestamped_backup cpE attE now fs db bk method).2.1 = fs ∧
      ∀ e ∈ (create_timestamped_backup cpE attE now fs db bk method).2.2,
        e.isMutation = false) := by
  constructor
  · intro cpE attE now fs db bk method ts hv
    simp [runProcess, hv]
  · intro cpE attE now fs db bk method h1 h2
    refine ⟨?_, ?_, ?_⟩ <;>
      simp [create_timestamped_backup, h1, h2, Ev.isMutation]

/-- Witness for C6 (amended) at the unknown method `zip`: the process
returns status 2 leaving everything untouched, and the direct
`create_timestamped_backup` call returns the empty sentinel. -/
theorem c6_unknown_method_no_mutation_witness :
    runProcess CpEnv.ok (AttEnv.mk false SubprocOutcome.timeout)
        (DateTime.mk 2026 1 2 3 4 5) (FS.mk [(["a"], [1])] [["d"]]) ["a"] ["b"]
        "zip" true =
      (2, FS.mk [(["a"], [1])] [["d"]], [], []) ∧
    (create_timestamped_backup CpEnv.ok (AttEnv.mk false SubprocOutcome.timeout)
        (DateTime.mk 2026 1 2 3 4 5) (FS.mk [(["a"], [1])] [["d"]]) ["a"] ["b"]
        "zip").1 = [] :=
  ⟨c6_unknown_method_no_mutation.1 CpEnv.ok (AttEnv.mk false SubprocOutcome.timeout)
      (DateTime.mk 2026 1 2 3 4 5) (FS.mk [(["a"], [1])] [["d"]]) ["a"] ["b"]
      "zip" true (by decide),
   (c6_unknown_method_no_mutation.2 CpEnv.ok (AttEnv.mk false SubprocOutcome.timeout)
      (DateTime.mk 2026 1 2 3 4 5) (FS.mk [(["a"], [1])] [["d"]]) ["a"] ["b"]
      "zip" (by decide) (by decide)).1⟩

theorem digitChar_inj :
    ∀ a, a < 10 → ∀ b, b < 10 → Nat.digitChar a = Nat.digitChar b → a = b := by
  decide

theorem isDigit_digitChar_mod (k : Nat) : (Nat.digitChar (k % 10)).isDigit = true :=
  (by decide : ∀ d, d < 10 → (Nat.digitChar d).isDigit = true) (k % 10)
    (Nat.mod_lt _ (by omega))

theorem data_mk (l : List Char) : (String.mk l).data = l := rfl

/-- The generated filename always matches `backup-YYYYMMDD-HHMMSS.duckdb`. -/
theorem matchesPattern_backupFilename (t : DateTime) :
    matchesPattern (backupFilename t) = true := by
  simp [matchesPattern, backupFilename, data_mk, fmtTs, pad4, pad2, checkPat,
    isChar, isDigit_digitChar_mod]

/-- Distinct wall-clock values (at second granularity, within field
ranges) yield distinct backup filenames. -/
theorem backupFilename_inj (t1 t2 : DateTime) (h1 : t1.valid) (h2 : t2.valid)
    (h : backupFilename t1 = backupFilename t2) : t1 = t2 := by
  obtain ⟨y1, mo1, d1, hh1, mi1, s1⟩ := t1
  obtain ⟨y2, mo2, d2, hh2, mi2, s2⟩ := t2
  simp only [DateTime.valid] at h1 h2
  obtain ⟨hy1a, hy1b, hmo1a, hmo1b, hd1a, hd1b, hhh1, hmi1, hs1⟩ := h1
  obtain ⟨hy2a, hy2b, hmo2a, hmo2b, hd2a, hd2b, hhh2, hmi2, hs2⟩ := h2
  have hl := congrArg String.data h
  simp only [backupFilename, data_mk, fmtTs, pad4, pad2, List.cons_append,
    List.nil_append, List.cons.injEq, and_true, true_and] at hl
  obtain ⟨e1, e2, e3, e4, e5, e6, e7, e8, e9, e10, e11, e12, e13, e14⟩ := hl
  have q1 := digitChar_inj _ (Nat.mod_lt _ (by omega)) _ (Nat.mod_lt _ (by omega)) e1
  have q2 := digitChar_inj _ (Nat.mod_lt _ (by omega)) _ (Nat.mod_lt _ (by omega)) e2
  have q3 := digitChar_inj _ (Nat.mod_lt _ (by omega)) _ (Nat.mod_lt _ (by omega)) e3
  have q4 := digitChar_inj _ (Nat.mod_lt _ (by omega)) _ (Nat.mod_lt _ (by omega)) e4
  have q5 := digitChar_inj _ (Nat.mod_lt _ (by omega)) _ (Nat.mod_lt _ (by omega)) e5
  have q6 := digitChar_inj _ (Nat.mod_lt _ (by omega)) _ (Nat.mod_lt _ (by omega)) e6
  have q7 := digitChar_inj _ (Nat.mod_lt _ (by omega)) _ (Nat.mod_lt _ (by omega)) e7
  have q8 := digitChar_inj _ (Nat.mod_lt _ (by omega)) _ (Nat.mod_lt _ (by omega)) e8
  have q9 := digitChar_inj _ (Nat.mod_lt _ (by omega)) _ (Nat.mod_lt _ (by omega)) e9
  have q10 := digitChar_inj _ (Nat.mod_lt _ (by omega)) _ (Nat.mod_lt _ (by omega)) e10
  have q11 := digitChar_inj _ (Nat.mod_lt _ (by omega)) _ (Nat.mod_lt _ (by omega)) e11
  have q12 := digitChar_inj _ (Nat.mod_lt _ (by omega)) _ (Nat.mod_lt _ (by omega)) e12
  have q13 := digitChar_inj _ (Nat.mod_lt _ (by omega)) _ (Nat.mod_lt _ (by omega)) e13
  have q14 := digitChar_inj _ (Nat.mod_lt _ (by omega)) _ (Nat.mod_lt _ (by omega)) e14
  have ey : y1 = y2 := by omega
  have emo : mo1 = mo2 := by omega
  have ed : d1 = d2 := by omega
  have ehh : hh1 = hh2 := by omega
  have emi : mi1 = mi2 := by omega
  have es : s1 = s2 := by omega
  subst ey; subst emo; subst ed; subst ehh; subst emi; subst es
  rfl

/-- C4: the destination filename is `backup-<YYYYMMDD-HHMMSS>.duckdb`
built from the current local time and joined to the supplied backup
directory — the function returns exactly that joined path when the
selected strategy succeeds and the empty sentinel (a value, never an
exception) when it fails or the method is unknown — the filename matches
the documented pattern, and any different wall-clock second yields a
different filename. -/
theorem c4_timestamped_naming (cpE : CpEnv) (attE : AttEnv) (now : DateTime)
    (fs : FS) (db bdir : FPath) (method : String) (hv : now.valid) :
    (create_timestamped_backup cpE attE now fs db bdir method).1 =
      (if (if method = "cp" then
            (backup_with_cp cpE fs db (bdir ++ [backupFilename now])).1
          else if method = "attach" then
            (backup_with_attach attE fs db (bdir ++ [backupFilename now])).1
          else false) = true
        then bdir ++ [backupFilename now] else ([] : FPath)) ∧
    matchesPattern (backupFilename now) = true ∧
    ∀ t2 : DateTime, t2.valid → now ≠ t2 →
      backupFilename now ≠ backupFilename t2 := by
  refine ⟨?_, matchesPattern_backupFilename now, ?_⟩
  · by_cases hcp : method = "cp"
    · simp [create_timestamped_backup, hcp]
    · by_cases hat : method = "attach" <;>
        simp [create_timestamped_backup, hcp, hat]
  · intro t2 hv2 hne heq
    exact hne (backupFilename_inj now t2 hv hv2 heq)

/-- Witness for C4 at the wall clock 2025-12-23 15:30:45: a successful
concrete copy run returns the joined timestamped path, the filename
matches the pattern, and the clock one second later yields a different
filename. -/
theorem c4_witness :
    (create_timestamped_backup CpEnv.ok (AttEnv.mk false SubprocOutcome.timeout)
        (DateTime.mk 2025 12 23 15 30 45) (FS.mk [(["d"], [1])] []) ["d"] ["bk"]
        "cp").1 = ["bk", backupFilename (DateTime.mk 2025 12 23 15 30 45)] ∧
    matchesPattern (backupFilename (DateTime.mk 2025 12 23 15 30 45)) = true ∧
    backupFilename (DateTime.mk 2025 12 23 15 30 45) ≠
      backupFilename (DateTime.mk 2025 12 23 15 30 46) := by
  have h := c4_timestamped_naming CpEnv.ok (AttEnv.mk false SubprocOutcome.timeout)
    (DateTime.mk 2025 12 23 15 30 45) (FS.mk [(["d"], [1])] []) ["d"] ["bk"] "cp"
    (by decide)
  refine ⟨?_, h.2.1,
    h.2.2 (DateTime.mk 2025 12 23 15 30 46) (by decide) (by decide)⟩
  rw [h.1]
  decide
